import Mathlib

/-!
Verification of the growth projection tool (`src/growth_projection_tool.py`).

The core function `generate_growth_projection` is embedded shallowly:

* Python's arbitrary-precision integers become `ℤ` (the month counter and
  list indices are `ℕ`);
* real-valued quantities (growth rate, prices, costs) become `ℚ`, i.e. the
  float arithmetic of the source is modelled as exact real arithmetic;
* Python's `int(...)` conversion truncates toward zero, embedded as `truncQ`;
* the pandas `DataFrame(pricing_data, columns=column_headers)` result is
  embedded as the pair of the row list (as `MonthRecord`s, one per
  `[i, user_count] + tier_costs + [total_cost]` row) and the header list;
* `generate_growth_projection` computes the rows and headers of lines 7-45;
  the DataFrame constructor of line 47 additionally requires every row to be
  exactly as wide as the header list and raises `ValueError` otherwise, so
  the full function, `generate_growth_projection_checked`, composes the row
  and header computation with that width check (`mkDataFrame`) and takes the
  horizon as the arbitrary Python integer it is: `range(months)` iterates
  `max(months, 0)` times.

The function performs no validation of the numeric bounds; its only failure
mode is the DataFrame width check.
-/

/-- Python's `int(x)` on a real value: truncation toward zero. -/
def truncQ (q : ℚ) : ℤ :=
  if 0 ≤ q then ⌊q⌋ else ⌈q⌉

/-- The user sequence of lines 7-9: `users = [initial_users]` and then
`users.append(int(users[-1] * (1 + growth_rate / 100)))` once per month. -/
def userSeq (initial_users : ℤ) (growth_rate : ℚ) : ℕ → ℤ
  | 0 => initial_users
  | n + 1 => truncQ ((userSeq initial_users growth_rate n : ℚ) * (1 + growth_rate / 100))

/-- One iteration of the tier loop of lines 17-25.  The accumulator is
`(tier_costs, remaining_users, total_cost)`; the pair `lp` is one
`(limit, price)` element of `zip(tier_limits, tier_prices)`. -/
def tierStep (acc : List ℚ × ℤ × ℚ) (lp : ℤ × ℚ) : List ℚ × ℤ × ℚ :=
  if acc.2.1 > lp.1 then
    (acc.1 ++ [(lp.1 : ℚ) * lp.2], acc.2.1 - lp.1, acc.2.2 + (lp.1 : ℚ) * lp.2)
  else
    (acc.1 ++ [(acc.2.1 : ℚ) * lp.2], 0, acc.2.2 + (acc.2.1 : ℚ) * lp.2)

/-- The per-month pricing of lines 13-36: returns `(tier_costs, total_cost)`. -/
def priceMonth (tier_limits : List ℤ) (tier_prices : List ℚ) (final_tier_price : ℚ)
    (use_tiers : Bool) (user_count : ℤ) : List ℚ × ℚ :=
  if use_tiers then
    let s := (tier_limits.zip tier_prices).foldl tierStep ([], user_count, 0)
    if s.2.1 > 0 then
      (s.1 ++ [(s.2.1 : ℚ) * final_tier_price], s.2.2 + (s.2.1 : ℚ) * final_tier_price)
    else
      (s.1 ++ [(0 : ℚ)], s.2.2)
  else
    ([(user_count : ℚ) * final_tier_price], (user_count : ℚ) * final_tier_price)

/-- One row `[i, user_count] + tier_costs + [total_cost]` of `pricing_data`
(line 38), with the positions named after the spec's MonthRecord fields. -/
structure MonthRecord where
  month : ℕ
  projectedUsers : ℤ
  tierCosts : List ℚ
  totalCost : ℚ
deriving DecidableEq, Repr

/-- The column headers of lines 40-45. -/
def column_headers (tier_limits : List ℤ) (use_tiers : Bool) : List String :=
  ["Month", "Projected Users"] ++
    (if use_tiers then
      (List.range tier_limits.length).map
        (fun i => "Tier " ++ toString (i + 1) ++ " Pricing ($)") ++
        ["Final Tier Pricing ($)"]
    else ["Final Tier Pricing ($)"]) ++
    ["Total Estimated Pricing ($)"]

/-- The `pricing_data` rows and `column_headers` of lines 7-45, i.e. the
whole of `generate_growth_projection` except the `pd.DataFrame` construction
of line 47 (see `generate_growth_projection_checked` for the full function,
width check included).  `months : ℕ` is the number of loop iterations of
line 8. -/
def generate_growth_projection (initial_users : ℤ) (growth_rate : ℚ) (months : ℕ)
    (tier_limits : List ℤ) (tier_prices : List ℚ) (final_tier_price : ℚ)
    (use_tiers : Bool) : List MonthRecord × List String :=
  ((List.range (months + 1)).map (fun i =>
      let user_count := userSeq initial_users growth_rate i
      let pc := priceMonth tier_limits tier_prices final_tier_price use_tiers user_count
      { month := i, projectedUsers := user_count, tierCosts := pc.1, totalCost := pc.2 }),
   column_headers tier_limits use_tiers)

/-- The `pd.DataFrame(pricing_data, columns=column_headers)` constructor of
line 47: every row `[i, user_count] + tier_costs + [total_cost]` (width
`2 + tier_costs.length + 1`) must be exactly as wide as the column list,
else pandas raises `ValueError` -- modelled as `none`. -/
def mkDataFrame (rows : List MonthRecord) (headers : List String) :
    Option (List MonthRecord × List String) :=
  if ∀ r ∈ rows, 2 + r.tierCosts.length + 1 = headers.length then
    some (rows, headers)
  else
    none

/-- `generate_growth_projection` in full (lines 6-48), with the horizon as
the arbitrary Python integer it is -- `range(months)` iterates
`max(months, 0)` times, so `months.toNat` loop iterations -- and the
DataFrame construction of line 47 included: the call fails (`none`) exactly
when the constructor would raise `ValueError`. -/
def generate_growth_projection_checked (initial_users : ℤ) (growth_rate : ℚ)
    (months : ℤ) (tier_limits : List ℤ) (tier_prices : List ℚ)
    (final_tier_price : ℚ) (use_tiers : Bool) :
    Option (List MonthRecord × List String) :=
  let p := generate_growth_projection initial_users growth_rate months.toNat
    tier_limits tier_prices final_tier_price use_tiers
  mkDataFrame p.1 p.2

/-- Modelled from the spec (section 4.1, Tiered pricing evaluation), for the
refinement claim about the tier walk: a bounded tier charges
`charged = min(remaining, capacity)` units at its unit price and decrements
`remaining` by `charged`. -/
def specTierStep (acc : List ℚ × ℤ × ℚ) (t : ℤ × ℚ) : List ℚ × ℤ × ℚ :=
  (acc.1 ++ [((min acc.2.1 t.1 : ℤ) : ℚ) * t.2],
   acc.2.1 - min acc.2.1 t.1,
   acc.2.2 + ((min acc.2.1 t.1 : ℤ) : ℚ) * t.2)

/-- Modelled from the spec (section 4.1, Tiered pricing evaluation), for the
refinement claim about the tier walk: the bounded tiers are consumed in order
by `specTierStep`; after all bounded tiers, any positive remainder is charged
at `finalUnitPrice` with no upper bound, else an explicit `0` entry is
appended. -/
def specTierWalk (tiers : List (ℤ × ℚ)) (finalUnitPrice : ℚ) (userCount : ℤ) :
    List ℚ × ℚ :=
  let s := tiers.foldl specTierStep ([], userCount, 0)
  if s.2.1 > 0 then
    (s.1 ++ [(s.2.1 : ℚ) * finalUnitPrice], s.2.2 + (s.2.1 : ℚ) * finalUnitPrice)
  else
    (s.1 ++ [(0 : ℚ)], s.2.2)

/-! ### Helper lemmas -/

theorem truncQ_of_nonneg (q : ℚ) (h : 0 ≤ q) : truncQ q = ⌊q⌋ :=
  if_pos h

theorem one_le_growth_factor (g : ℚ) (hg : 0 ≤ g) : (1 : ℚ) ≤ 1 + g / 100 :=
  le_add_of_nonneg_right (by positivity)

theorem userSeq_nonneg (i : ℤ) (g : ℚ) (hi : 0 ≤ i) (hg : 0 ≤ g) :
    ∀ n, 0 ≤ userSeq i g n
  | 0 => hi
  | n + 1 => by
    have hn : (0 : ℚ) ≤ (userSeq i g n : ℚ) := by
      exact_mod_cast userSeq_nonneg i g hi hg n
    have hq : (0 : ℚ) ≤ (userSeq i g n : ℚ) * (1 + g / 100) :=
      mul_nonneg hn (le_trans zero_le_one (one_le_growth_factor g hg))
    rw [userSeq, truncQ_of_nonneg _ hq]
    exact Int.le_floor.mpr (by simpa using hq)

theorem userSeq_succ_eq_floor (i : ℤ) (g : ℚ) (hi : 0 ≤ i) (hg : 0 ≤ g) (n : ℕ) :
    userSeq i g (n + 1) = ⌊(userSeq i g n : ℚ) * (1 + g / 100)⌋ := by
  have hn : (0 : ℚ) ≤ (userSeq i g n : ℚ) := by
    exact_mod_cast userSeq_nonneg i g hi hg n
  have hq : (0 : ℚ) ≤ (userSeq i g n : ℚ) * (1 + g / 100) :=
    mul_nonneg hn (le_trans zero_le_one (one_le_growth_factor g hg))
  rw [userSeq, truncQ_of_nonneg _ hq]

theorem userSeq_le_succ (i : ℤ) (g : ℚ) (hi : 0 ≤ i) (hg : 0 ≤ g) (n : ℕ) :
    userSeq i g n ≤ userSeq i g (n + 1) := by
  have hn : (0 : ℚ) ≤ (userSeq i g n : ℚ) := by
    exact_mod_cast userSeq_nonneg i g hi hg n
  have hq : ((userSeq i g n : ℤ) : ℚ) ≤ (userSeq i g n : ℚ) * (1 + g / 100) :=
    le_mul_of_one_le_right hn (one_le_growth_factor g hg)
  rw [userSeq_succ_eq_floor i g hi hg n]
  exact Int.le_floor.mpr hq

/-- The record built for month `n`. -/
def monthRecordAt (initial_users : ℤ) (growth_rate : ℚ) (tier_limits : List ℤ)
    (tier_prices : List ℚ) (final_tier_price : ℚ) (use_tiers : Bool) (n : ℕ) :
    MonthRecord :=
  { month := n
    projectedUsers := userSeq initial_users growth_rate n
    tierCosts := (priceMonth tier_limits tier_prices final_tier_price use_tiers
      (userSeq initial_users growth_rate n)).1
    totalCost := (priceMonth tier_limits tier_prices final_tier_price use_tiers
      (userSeq initial_users growth_rate n)).2 }

theorem gen_rows_eq (i : ℤ) (g : ℚ) (months : ℕ) (tl : List ℤ) (tp : List ℚ)
    (ftp : ℚ) (ut : Bool) :
    (generate_growth_projection i g months tl tp ftp ut).1 =
      (List.range (months + 1)).map (monthRecordAt i g tl tp ftp ut) :=
  rfl

theorem gen_rows_length (i : ℤ) (g : ℚ) (months : ℕ) (tl : List ℤ) (tp : List ℚ)
    (ftp : ℚ) (ut : Bool) :
    (generate_growth_projection i g months tl tp ftp ut).1.length = months + 1 := by
  rw [gen_rows_eq]
  simp

theorem gen_rows_getElem (i : ℤ) (g : ℚ) (months : ℕ) (tl : List ℤ) (tp : List ℚ)
    (ftp : ℚ) (ut : Bool) (n : ℕ) (hn : n ≤ months) :
    ((generate_growth_projection i g months tl tp ftp ut).1)[n]? =
      some (monthRecordAt i g tl tp ftp ut n) := by
  rw [gen_rows_eq, List.getElem?_map, List.getElem?_range (Nat.lt_succ_of_le hn)]
  rfl

theorem mem_gen_rows (i : ℤ) (g : ℚ) (months : ℕ) (tl : List ℤ) (tp : List ℚ)
    (ftp : ℚ) (ut : Bool) (r : MonthRecord)
    (hr : r ∈ (generate_growth_projection i g months tl tp ftp ut).1) :
    ∃ n, n ≤ months ∧ r = monthRecordAt i g tl tp ftp ut n := by
  rw [gen_rows_eq] at hr
  rcases List.mem_map.mp hr with ⟨n, hn, rfl⟩
  exact ⟨n, Nat.lt_succ_iff.mp (List.mem_range.mp hn), rfl⟩

theorem tierStep_costs (acc : List ℚ × ℤ × ℚ) (lp : ℤ × ℚ) :
    (tierStep acc lp).1 = acc.1 ++ [((min acc.2.1 lp.1 : ℤ) : ℚ) * lp.2] := by
  unfold tierStep
  split
  · rw [min_eq_right (le_of_lt (by assumption))]
  · rw [min_eq_left (not_lt.mp (by assumption))]

theorem tierStep_remaining (acc : List ℚ × ℤ × ℚ) (lp : ℤ × ℚ) :
    (tierStep acc lp).2.1 = acc.2.1 - min acc.2.1 lp.1 := by
  unfold tierStep
  split
  · rw [min_eq_right (le_of_lt (by assumption))]
  · rw [min_eq_left (not_lt.mp (by assumption))]
    simp

theorem tierStep_total (acc : List ℚ × ℤ × ℚ) (lp : ℤ × ℚ) :
    (tierStep acc lp).2.2 = acc.2.2 + ((min acc.2.1 lp.1 : ℤ) : ℚ) * lp.2 := by
  unfold tierStep
  split
  · rw [min_eq_right (le_of_lt (by assumption))]
  · rw [min_eq_left (not_lt.mp (by assumption))]

theorem foldl_tierStep_costs_length (pairs : List (ℤ × ℚ)) :
    ∀ acc : List ℚ × ℤ × ℚ,
      ((pairs.foldl tierStep acc).1).length = acc.1.length + pairs.length := by
  induction pairs with
  | nil => intro acc; simp
  | cons p ps ih =>
    intro acc
    rw [List.foldl_cons, ih (tierStep acc p), tierStep_costs]
    simp
    omega

theorem foldl_tierStep_total_eq_sum (pairs : List (ℤ × ℚ)) :
    ∀ acc : List ℚ × ℤ × ℚ, acc.2.2 = acc.1.sum →
      (pairs.foldl tierStep acc).2.2 = ((pairs.foldl tierStep acc).1).sum := by
  induction pairs with
  | nil => intro acc h; simpa using h
  | cons p ps ih =>
    intro acc h
    rw [List.foldl_cons]
    refine ih (tierStep acc p) ?_
    rw [tierStep_costs, tierStep_total, List.sum_append, h]
    simp

theorem map_fst_sum_nonneg (pairs : List (ℤ × ℚ)) (hcap : ∀ p ∈ pairs, 0 ≤ p.1) :
    0 ≤ (pairs.map Prod.fst).sum :=
  List.sum_nonneg (by
    intro x hx
    rcases List.mem_map.mp hx with ⟨p, hp, rfl⟩
    exact hcap p hp)

theorem foldl_tierStep_remaining_nonpos (pairs : List (ℤ × ℚ)) :
    ∀ acc : List ℚ × ℤ × ℚ, (∀ p ∈ pairs, 0 ≤ p.1) →
      acc.2.1 ≤ (pairs.map Prod.fst).sum →
      (pairs.foldl tierStep acc).2.1 ≤ 0 := by
  induction pairs with
  | nil =>
    intro acc _ hle
    simpa using hle
  | cons p ps ih =>
    intro acc hcap hle
    rw [List.foldl_cons]
    have hS : 0 ≤ (ps.map Prod.fst).sum :=
      map_fst_sum_nonneg ps (fun q hq => hcap q (List.mem_cons_of_mem p hq))
    refine ih (tierStep acc p) (fun q hq => hcap q (List.mem_cons_of_mem p hq)) ?_
    rw [tierStep_remaining]
    have hsum : (((p :: ps).map Prod.fst).sum) = p.1 + (ps.map Prod.fst).sum := by
      simp
    rw [hsum] at hle
    omega

theorem priceMonth_false_eq (tl : List ℤ) (tp : List ℚ) (ftp : ℚ) (u : ℤ) :
    priceMonth tl tp ftp false u = ([(u : ℚ) * ftp], (u : ℚ) * ftp) :=
  rfl

theorem priceMonth_true_eq (tl : List ℤ) (tp : List ℚ) (ftp : ℚ) (u : ℤ) :
    priceMonth tl tp ftp true u =
      (if ((tl.zip tp).foldl tierStep ([], u, 0)).2.1 > 0 then
        (((tl.zip tp).foldl tierStep ([], u, 0)).1 ++
            [(((tl.zip tp).foldl tierStep ([], u, 0)).2.1 : ℚ) * ftp],
          ((tl.zip tp).foldl tierStep ([], u, 0)).2.2 +
            (((tl.zip tp).foldl tierStep ([], u, 0)).2.1 : ℚ) * ftp)
      else
        (((tl.zip tp).foldl tierStep ([], u, 0)).1 ++ [(0 : ℚ)],
          ((tl.zip tp).foldl tierStep ([], u, 0)).2.2)) :=
  rfl

theorem priceMonth_sum (tl : List ℤ) (tp : List ℚ) (ftp : ℚ) (ut : Bool) (u : ℤ) :
    (priceMonth tl tp ftp ut u).1.sum = (priceMonth tl tp ftp ut u).2 := by
  cases ut with
  | false => simp [priceMonth_false_eq]
  | true =>
    have hfold := foldl_tierStep_total_eq_sum (tl.zip tp) ([], u, 0) (by simp)
    rw [priceMonth_true_eq]
    split
    · rw [List.sum_append, hfold]
      simp
    · rw [List.sum_append, hfold]
      simp

/-! ### Claim theorems -/

/-- C1 (counterexample): with the invalid configuration `initialUsers = 0`
(growth rate 5, horizon 2, flat price 1) the projector does not fail: it
returns a complete three-record ProjectionResult, so the claimed
`InvalidConfiguration` error does not exist in the code. -/
theorem C1_invalid_config_counterexample :
    (generate_growth_projection 0 5 2 [] [] 1 false).1 =
      [⟨0, 0, [0], 0⟩, ⟨1, 0, [0], 0⟩, ⟨2, 0, [0], 0⟩] := by
  norm_num [generate_growth_projection, List.range_succ, userSeq, truncQ, priceMonth]

/-- C4: for every config the result is an ordered sequence of exactly
`horizonMonths + 1` records, one per month index 0..horizonMonths, with each
record's month field equal to its position in the sequence. -/
theorem C4_result_shape (i : ℤ) (g : ℚ) (months : ℕ) (tl : List ℤ) (tp : List ℚ)
    (ftp : ℚ) (ut : Bool) :
    (generate_growth_projection i g months tl tp ftp ut).1.length = months + 1 ∧
      ∀ n, n ≤ months →
        (((generate_growth_projection i g months tl tp ftp ut).1)[n]?).map
            MonthRecord.month = some n := by
  refine ⟨gen_rows_length i g months tl tp ftp ut, ?_⟩
  intro n hn
  rw [gen_rows_getElem i g months tl tp ftp ut n hn]
  rfl

/-- C4 witness: the shape property evaluated at a concrete configuration. -/
theorem C4_result_shape_witness :
    (generate_growth_projection 7 25 3 [] [] 1 false).1.length = 3 + 1 ∧
      (((generate_growth_projection 7 25 3 [] [] 1 false).1)[2]?).map
          MonthRecord.month = some 2 :=
  ⟨(C4_result_shape 7 25 3 [] [] 1 false).1,
   (C4_result_shape 7 25 3 [] [] 1 false).2 2 (by norm_num)⟩

/-- C5: for every record of every projection (Flat or Tiered) the sum of
`tierCosts` equals `totalCost`; over the exact rational model the equality is
exact, hence within any floating-point tolerance. -/
theorem C5_sum_tierCosts_eq_totalCost (i : ℤ) (g : ℚ) (months : ℕ)
    (tl : List ℤ) (tp : List ℚ) (ftp : ℚ) (ut : Bool) (r : MonthRecord)
    (hr : r ∈ (generate_growth_projection i g months tl tp ftp ut).1) :
    r.tierCosts.sum = r.totalCost := by
  rcases mem_gen_rows i g months tl tp ftp ut r hr with ⟨n, hn, rfl⟩
  exact priceMonth_sum tl tp ftp ut (userSeq i g n)

/-- C5 witness: the invariant evaluated on a concrete tiered record. -/
theorem C5_sum_tierCosts_witness :
    (⟨0, 10, [6, 35], 41⟩ : MonthRecord).tierCosts.sum =
      (⟨0, 10, [6, 35], 41⟩ : MonthRecord).totalCost :=
  C5_sum_tierCosts_eq_totalCost 10 0 0 [3] [2] 5 true ⟨0, 10, [6, 35], 41⟩
    (by norm_num [generate_growth_projection, List.range_succ, userSeq, truncQ,
      priceMonth, tierStep])

/-- C7: in Flat mode every month's `totalCost` is exactly
`projectedUsers * pricePerUser` and `tierCosts` is the one-element list
`[totalCost]` (the flat rate is passed as `final_tier_price`). -/
theorem C7_flat_pricing (i : ℤ) (g : ℚ) (months : ℕ) (tl : List ℤ) (tp : List ℚ)
    (ftp : ℚ) (r : MonthRecord)
    (hr : r ∈ (generate_growth_projection i g months tl tp ftp false).1) :
    r.totalCost = (r.projectedUsers : ℚ) * ftp ∧ r.tierCosts = [r.totalCost] := by
  rcases mem_gen_rows i g months tl tp ftp false r hr with ⟨n, hn, rfl⟩
  simp [monthRecordAt, priceMonth_false_eq]

/-- C7 witness: the Flat-mode pricing law on a concrete record. -/
theorem C7_flat_pricing_witness :
    (⟨0, 1, [2], 2⟩ : MonthRecord).totalCost =
        ((⟨0, 1, [2], 2⟩ : MonthRecord).projectedUsers : ℚ) * 2 ∧
      (⟨0, 1, [2], 2⟩ : MonthRecord).tierCosts =
        [(⟨0, 1, [2], 2⟩ : MonthRecord).totalCost] :=
  C7_flat_pricing 1 0 0 [] [] 2 ⟨0, 1, [2], 2⟩
    (by norm_num [generate_growth_projection, List.range_succ, userSeq, truncQ,
      priceMonth])

theorem tierStep_eq_spec (acc : List ℚ × ℤ × ℚ) (lp : ℤ × ℚ) :
    tierStep acc lp = specTierStep acc lp := by
  unfold tierStep specTierStep
  split
  · rw [min_eq_right (le_of_lt (by assumption))]
  · rw [min_eq_left (not_lt.mp (by assumption))]
    simp

theorem priceMonth_eq_specTierWalk (tl : List ℤ) (tp : List ℚ) (ftp : ℚ) (u : ℤ) :
    priceMonth tl tp ftp true u = specTierWalk (tl.zip tp) ftp u := by
  have hfold : (tl.zip tp).foldl tierStep ([], u, 0) =
      (tl.zip tp).foldl specTierStep ([], u, 0) :=
    List.foldl_ext tierStep specTierStep ([], u, 0) (fun a b _ => tierStep_eq_spec a b)
  rw [priceMonth_true_eq]
  simp only [specTierWalk]
  rw [hfold]

/-- C2: the projected user sequence starts at `initialUsers` and each later
month is the floor of the previous month times `1 + growthRatePercent / 100`,
with truncation at every step; in particular initialUsers 1, growth rate 100,
horizon 3 yields users `[1, 2, 4, 8]`. -/
theorem C2_growth_recurrence (i : ℤ) (g : ℚ) (months : ℕ) (tl : List ℤ)
    (tp : List ℚ) (ftp : ℚ) (ut : Bool) (hi : 0 ≤ i) (hg : 0 ≤ g) :
    (∃ a, ((generate_growth_projection i g months tl tp ftp ut).1)[0]? = some a ∧
        a.projectedUsers = i) ∧
    (∀ m, m + 1 ≤ months → ∃ a b,
        ((generate_growth_projection i g months tl tp ftp ut).1)[m]? = some a ∧
        ((generate_growth_projection i g months tl tp ftp ut).1)[m + 1]? = some b ∧
        b.projectedUsers = ⌊(a.projectedUsers : ℚ) * (1 + g / 100)⌋) ∧
    ((generate_growth_projection 1 100 3 [] [] 1 false).1).map
        MonthRecord.projectedUsers = [1, 2, 4, 8] := by
  refine ⟨⟨monthRecordAt i g tl tp ftp ut 0,
    gen_rows_getElem i g months tl tp ftp ut 0 (Nat.zero_le months), rfl⟩, ?_, ?_⟩
  · intro m hm
    exact ⟨monthRecordAt i g tl tp ftp ut m, monthRecordAt i g tl tp ftp ut (m + 1),
      gen_rows_getElem i g months tl tp ftp ut m (by omega),
      gen_rows_getElem i g months tl tp ftp ut (m + 1) hm,
      userSeq_succ_eq_floor i g hi hg m⟩
  · norm_num [gen_rows_eq, List.range_succ, monthRecordAt, userSeq, truncQ]

/-- C2 witness: the recurrence applied at the concrete Scenario C
configuration. -/
theorem C2_growth_recurrence_witness :
    (∃ a, ((generate_growth_projection 1 100 3 [] [] 1 false).1)[0]? = some a ∧
        a.projectedUsers = 1) ∧
    (∀ m, m + 1 ≤ 3 → ∃ a b,
        ((generate_growth_projection 1 100 3 [] [] 1 false).1)[m]? = some a ∧
        ((generate_growth_projection 1 100 3 [] [] 1 false).1)[m + 1]? = some b ∧
        b.projectedUsers = ⌊(a.projectedUsers : ℚ) * (1 + 100 / 100)⌋) ∧
    ((generate_growth_projection 1 100 3 [] [] 1 false).1).map
        MonthRecord.projectedUsers = [1, 2, 4, 8] :=
  C2_growth_recurrence 1 100 3 [] [] 1 false (by norm_num) (by norm_num)

/-- C3: in Tiered mode each record's pricing is exactly the spec-side tier
walk: tiers are consumed in order, a bounded tier charges
`min(remaining, capacity)` units at its unit price and decrements `remaining`
by that amount, and the remainder after all bounded tiers is charged at the
final price with no upper bound. -/
theorem C3_tiered_walk_refines_spec (i : ℤ) (g : ℚ) (months : ℕ) (tl : List ℤ)
    (tp : List ℚ) (ftp : ℚ) (r : MonthRecord)
    (hr : r ∈ (generate_growth_projection i g months tl tp ftp true).1) :
    (r.tierCosts, r.totalCost) = specTierWalk (tl.zip tp) ftp r.projectedUsers := by
  rcases mem_gen_rows i g months tl tp ftp true r hr with ⟨n, hn, rfl⟩
  simp only [monthRecordAt]
  rw [priceMonth_eq_specTierWalk]

/-- C3 witness: the tier walk evaluated on a concrete tiered record. -/
theorem C3_tiered_walk_witness :
    ((⟨0, 10, [6, 35], 41⟩ : MonthRecord).tierCosts,
        (⟨0, 10, [6, 35], 41⟩ : MonthRecord).totalCost) =
      specTierWalk ([(3 : ℤ)].zip [(2 : ℚ)]) 5
        (⟨0, 10, [6, 35], 41⟩ : MonthRecord).projectedUsers :=
  C3_tiered_walk_refines_spec 10 0 0 [3] [2] 5 ⟨0, 10, [6, 35], 41⟩
    (by norm_num [generate_growth_projection, List.range_succ, userSeq, truncQ,
      priceMonth, tierStep])

/-- C8: when the growth rate is non-negative the projected user sequence is
monotonically non-decreasing from month to month. -/
theorem C8_users_monotone (i : ℤ) (g : ℚ) (months : ℕ) (tl : List ℤ)
    (tp : List ℚ) (ftp : ℚ) (ut : Bool) (hi : 0 ≤ i) (hg : 0 ≤ g) (m : ℕ)
    (hm : m + 1 ≤ months) :
    ∃ a b, ((generate_growth_projection i g months tl tp ftp ut).1)[m]? = some a ∧
      ((generate_growth_projection i g months tl tp ftp ut).1)[m + 1]? = some b ∧
      a.projectedUsers ≤ b.projectedUsers :=
  ⟨monthRecordAt i g tl tp ftp ut m, monthRecordAt i g tl tp ftp ut (m + 1),
   gen_rows_getElem i g months tl tp ftp ut m (by omega),
   gen_rows_getElem i g months tl tp ftp ut (m + 1) hm,
   userSeq_le_succ i g hi hg m⟩

/-- C8 witness: monotonicity applied at a concrete configuration and month. -/
theorem C8_users_monotone_witness :
    ∃ a b, ((generate_growth_projection 10000 5 2 [] [] 1 false).1)[0]? = some a ∧
      ((generate_growth_projection 10000 5 2 [] [] 1 false).1)[1]? = some b ∧
      a.projectedUsers ≤ b.projectedUsers :=
  C8_users_monotone 10000 5 2 [] [] 1 false (by norm_num) (by norm_num) 0
    (by norm_num)

theorem priceMonth_true_length (tl : List ℤ) (tp : List ℚ) (ftp : ℚ) (u : ℤ) :
    (priceMonth tl tp ftp true u).1.length = (tl.zip tp).length + 1 := by
  rw [priceMonth_true_eq]
  split
  · rw [List.length_append, foldl_tierStep_costs_length]
    simp
  · rw [List.length_append, foldl_tierStep_costs_length]
    simp

theorem priceMonth_true_overflow_zero (tl : List ℤ) (tp : List ℚ) (ftp : ℚ)
    (u : ℤ) (hlen : tl.length = tp.length) (hcap : ∀ l ∈ tl, 0 ≤ l)
    (hle : u ≤ tl.sum) :
    (priceMonth tl tp ftp true u).1.getLast? = some 0 := by
  have hfst : (tl.zip tp).map Prod.fst = tl := List.map_fst_zip tl tp (le_of_eq hlen)
  have hcap2 : ∀ p ∈ tl.zip tp, 0 ≤ p.1 := by
    intro p hp
    rcases p with ⟨a, b⟩
    exact hcap a (List.of_mem_zip hp).1
  have hrem : ((tl.zip tp).foldl tierStep ([], u, 0)).2.1 ≤ 0 :=
    foldl_tierStep_remaining_nonpos (tl.zip tp) ([], u, 0) hcap2
      (by rw [hfst]; exact hle)
  have hng : ¬ ((tl.zip tp).foldl tierStep ([], u, 0)).2.1 > 0 := by omega
  rw [priceMonth_true_eq, if_neg hng]
  exact List.getLast?_concat _

/-- C6: in Tiered mode every record's `tierCosts` has exactly (number of
configured tiers + 1) entries -- the overflow entry is appended even when it
is 0 -- and whenever the bounded tier capacities cover that month's
projected users the overflow entry is exactly 0. -/
theorem C6_overflow_entry (i : ℤ) (g : ℚ) (months : ℕ) (tl : List ℤ)
    (tp : List ℚ) (ftp : ℚ) (hlen : tl.length = tp.length)
    (hcap : ∀ l ∈ tl, 0 ≤ l) (r : MonthRecord)
    (hr : r ∈ (generate_growth_projection i g months tl tp ftp true).1) :
    r.tierCosts.length = tl.length + 1 ∧
      (r.projectedUsers ≤ tl.sum → r.tierCosts.getLast? = some 0) := by
  rcases mem_gen_rows i g months tl tp ftp true r hr with ⟨n, hn, rfl⟩
  constructor
  · show (priceMonth tl tp ftp true (userSeq i g n)).1.length = tl.length + 1
    rw [priceMonth_true_length, List.length_zip, hlen, min_self]
  · intro hle
    exact priceMonth_true_overflow_zero tl tp ftp _ hlen hcap hle

/-- C6 witness: Scenario B -- two tiers of capacity 5000 cover the 10000
users, so the explicit overflow entry is 0. -/
theorem C6_overflow_entry_witness :
    (⟨0, 10000, [5000, 2500, 0], 7500⟩ : MonthRecord).tierCosts.length =
        ([(5000 : ℤ), 5000]).length + 1 ∧
      ((⟨0, 10000, [5000, 2500, 0], 7500⟩ : MonthRecord).projectedUsers ≤
          ([(5000 : ℤ), 5000]).sum →
        (⟨0, 10000, [5000, 2500, 0], 7500⟩ :
          MonthRecord).tierCosts.getLast? = some 0) :=
  C6_overflow_entry 10000 0 0 [5000, 5000] [1, 1/2] (4/5) (by norm_num)
    (by decide) ⟨0, 10000, [5000, 2500, 0], 7500⟩
    (by norm_num [generate_growth_projection, List.range_succ, userSeq, truncQ,
      priceMonth, tierStep])

/-- C9: the tabular output carries exactly the header labels Month,
Projected Users, one numbered tier label per bounded tier followed by the
final tier label when Tiered (just the final tier label when Flat), then the
total label, in that order. -/
theorem C9_column_headers (i : ℤ) (g : ℚ) (months : ℕ) (tl : List ℤ)
    (tp : List ℚ) (ftp : ℚ) :
    ((generate_growth_projection i g months tl tp ftp true).2 =
      ["Month", "Projected Users"] ++
        ((List.range tl.length).map
            (fun n => "Tier " ++ toString (n + 1) ++ " Pricing ($)") ++
          ["Final Tier Pricing ($)"]) ++ ["Total Estimated Pricing ($)"]) ∧
    (∀ n, n < tl.length →
      ((generate_growth_projection i g months tl tp ftp true).2)[2 + n]? =
        some ("Tier " ++ toString (n + 1) ++ " Pricing ($)")) ∧
    (generate_growth_projection i g months tl tp ftp false).2 =
      ["Month", "Projected Users", "Final Tier Pricing ($)",
        "Total Estimated Pricing ($)"] := by
  refine ⟨rfl, ?_, rfl⟩
  intro n hn
  show (column_headers tl true)[2 + n]? = _
  rw [column_headers]
  rw [if_pos rfl]
  rw [show 2 + n = n + 1 + 1 from by omega]
  simp only [List.cons_append, List.nil_append, List.getElem?_cons_succ,
    List.append_assoc]
  rw [List.getElem?_append_left (by simpa using hn), List.getElem?_map,
    List.getElem?_range hn]
  rfl

/-- C9 witness: the header labels at a concrete one-tier configuration. -/
theorem C9_column_headers_witness :
    (generate_growth_projection 1 0 1 [5000] [1] 1 true).2 =
        ["Month", "Projected Users"] ++
          ((List.range ([(5000 : ℤ)]).length).map
              (fun n => "Tier " ++ toString (n + 1) ++ " Pricing ($)") ++
            ["Final Tier Pricing ($)"]) ++ ["Total Estimated Pricing ($)"] ∧
      ((generate_growth_projection 1 0 1 [5000] [1] 1 true).2)[2 + 0]? =
        some ("Tier " ++ toString (0 + 1) ++ " Pricing ($)") :=
  ⟨(C9_column_headers 1 0 1 [5000] [1] 1).1,
   (C9_column_headers 1 0 1 [5000] [1] 1).2.1 0 (by norm_num)⟩

theorem zip_take_min (tl : List ℤ) (tp : List ℚ) :
    (tl.take (min tl.length tp.length)).zip (tp.take (min tl.length tp.length)) =
      tl.zip tp := by
  induction tl generalizing tp with
  | nil => simp
  | cons a l1 ih =>
    cases tp with
    | nil => simp
    | cons b l2 =>
      simp only [List.length_cons, Nat.succ_min_succ, List.take_succ_cons,
        List.zip_cons_cons]
      rw [ih]

theorem column_headers_true_length (tl : List ℤ) :
    (column_headers tl true).length = tl.length + 4 := by
  rw [column_headers, if_pos rfl]
  simp

theorem checked_match_some (i : ℤ) (g : ℚ) (months : ℤ) (tl : List ℤ)
    (tp : List ℚ) (ftp : ℚ) (ut : Bool) (hw : ut = true → tl.length ≤ tp.length) :
    generate_growth_projection_checked i g months tl tp ftp ut =
      some ((generate_growth_projection i g months.toNat tl tp ftp ut).1,
        column_headers tl ut) := by
  have hcond : ∀ r ∈ (generate_growth_projection i g months.toNat tl tp ftp ut).1,
      2 + r.tierCosts.length + 1 =
        ((generate_growth_projection i g months.toNat tl tp ftp ut).2).length := by
    intro r hr
    rcases mem_gen_rows i g months.toNat tl tp ftp ut r hr with ⟨n, hn, rfl⟩
    cases ut with
    | false =>
      show 2 + (priceMonth tl tp ftp false (userSeq i g n)).1.length + 1 = _
      rw [priceMonth_false_eq]
      rfl
    | true =>
      show 2 + (priceMonth tl tp ftp true (userSeq i g n)).1.length + 1 =
        (column_headers tl true).length
      rw [priceMonth_true_length, List.length_zip, column_headers_true_length,
        min_eq_left (hw rfl)]
      omega
  show mkDataFrame (generate_growth_projection i g months.toNat tl tp ftp ut).1
      (generate_growth_projection i g months.toNat tl tp ftp ut).2 = _
  unfold mkDataFrame
  rw [if_pos hcond]
  rfl

theorem checked_mismatch_none (i : ℤ) (g : ℚ) (months : ℤ) (tl : List ℤ)
    (tp : List ℚ) (ftp : ℚ) (hlt : tp.length < tl.length) :
    generate_growth_projection_checked i g months tl tp ftp true = none := by
  have h0 : monthRecordAt i g tl tp ftp true 0 ∈
      (generate_growth_projection i g months.toNat tl tp ftp true).1 := by
    rw [gen_rows_eq]
    exact List.mem_map_of_mem _ (List.mem_range.mpr (Nat.succ_pos _))
  have hne : ¬ ∀ r ∈ (generate_growth_projection i g months.toNat tl tp ftp
      true).1, 2 + r.tierCosts.length + 1 =
        ((generate_growth_projection i g months.toNat tl tp ftp true).2).length := by
    intro hall
    have hrow := hall _ h0
    have hlen0 : (monthRecordAt i g tl tp ftp true 0).tierCosts.length =
        tp.length + 1 := by
      show (priceMonth tl tp ftp true (userSeq i g 0)).1.length = tp.length + 1
      rw [priceMonth_true_length, List.length_zip, min_eq_right (le_of_lt hlt)]
    rw [hlen0, show ((generate_growth_projection i g months.toNat tl tp ftp
        true).2) = column_headers tl true from rfl,
      column_headers_true_length] at hrow
    omega
  show mkDataFrame (generate_growth_projection i g months.toNat tl tp ftp true).1
      (generate_growth_projection i g months.toNat tl tp ftp true).2 = none
  unfold mkDataFrame
  rw [if_neg hne]

/-- C1 (amended): `generate_growth_projection` performs no configuration
validation and raises no `InvalidConfiguration` error: whenever the tier
lists line up (always in Flat mode; at least as many prices as limits in
Tiered mode) the call succeeds on every input -- `initialUsers <= 0`,
negative rates and prices, and `horizonMonths <= 0` included -- and returns
a complete result with `max(horizonMonths, 0) + 1` records; the only failure
the function has is the DataFrame constructor ValueError when a Tiered call
has fewer prices than limits, which is independent of the claimed numeric
bounds. -/
theorem C1_no_validation_checked (i : ℤ) (g : ℚ) (months : ℤ) (tl : List ℤ)
    (tp : List ℚ) (ftp : ℚ) (ut : Bool) :
    ((ut = true → tl.length ≤ tp.length) →
      ∃ rows, generate_growth_projection_checked i g months tl tp ftp ut =
          some (rows, column_headers tl ut) ∧
        rows.length = months.toNat + 1) ∧
    (ut = true → tp.length < tl.length →
      generate_growth_projection_checked i g months tl tp ftp ut = none) := by
  constructor
  · intro hw
    exact ⟨(generate_growth_projection i g months.toNat tl tp ftp ut).1,
      checked_match_some i g months tl tp ftp ut hw,
      gen_rows_length i g months.toNat tl tp ftp ut⟩
  · intro hut hlt
    subst hut
    exact checked_mismatch_none i g months tl tp ftp hlt

/-- C1 witness: with the invalid numeric values initialUsers 0 and horizon
-1 the call still succeeds (one record, no error), while a tiered call with
two limits and one price fails with the DataFrame error. -/
theorem C1_no_validation_checked_witness :
    (∃ rows, generate_growth_projection_checked 0 5 (-1) [] [] 1 false =
        some (rows, column_headers [] false) ∧
      rows.length = (-1 : ℤ).toNat + 1) ∧
    generate_growth_projection_checked 7 5 2 [5, 6] [1] 3 true = none :=
  ⟨(C1_no_validation_checked 0 5 (-1) [] [] 1 false).1 (by simp),
   (C1_no_validation_checked 7 5 2 [5, 6] [1] 3 true).2 rfl (by norm_num)⟩

/-- C10 (counterexample): a tiered call with two limits and one price builds
rows of width min + 4 = 5 against len(tier_limits) + 4 = 6 headers, so the
DataFrame constructor of line 47 raises ValueError and the call returns
nothing -- the surplus limit is not silently ignored and no rows with
min + 1 tier-cost entries are produced. -/
theorem C10_mismatch_counterexample :
    generate_growth_projection_checked 10 0 0 [3, 4] [2] 5 true = none :=
  checked_mismatch_none 10 0 0 [3, 4] [2] 5 (by norm_num)

/-- C10 (amended): the tiered schedule is two parallel lists zipped in
pricing, so only the first `min(len(tier_limits), len(tier_prices))` tiers
are charged and the headers come from `len(tier_limits)` alone; when there
are at least as many prices as limits the surplus prices are silently
ignored -- the call equals the call on the price list truncated to
`len(tier_limits)` and succeeds, each row gaining `min + 1` tier-cost
entries -- but when there are more limits than prices the row width
`min + 4` does not match the `len(tier_limits) + 4` headers and the call
fails with the DataFrame constructor ValueError, producing nothing. -/
theorem C10_parallel_tier_lists (i : ℤ) (g : ℚ) (months : ℤ) (tl : List ℤ)
    (tp : List ℚ) (ftp : ℚ) :
    (tl.length ≤ tp.length →
      generate_growth_projection_checked i g months tl tp ftp true =
        generate_growth_projection_checked i g months tl (tp.take tl.length)
          ftp true ∧
      ∃ rows, generate_growth_projection_checked i g months tl tp ftp true =
          some (rows, column_headers tl true) ∧
        ∀ r ∈ rows, r.tierCosts.length = min tl.length tp.length + 1) ∧
    (tp.length < tl.length →
      generate_growth_projection_checked i g months tl tp ftp true = none) := by
  constructor
  · intro hle
    have hzip : tl.zip tp = tl.zip (tp.take tl.length) := by
      conv_lhs => rw [← zip_take_min tl tp]
      rw [min_eq_left hle, List.take_length]
    have hpm : ∀ u, priceMonth tl tp ftp true u =
        priceMonth tl (tp.take tl.length) ftp true u := by
      intro u
      rw [priceMonth_true_eq, priceMonth_true_eq, hzip]
    have hrows : (generate_growth_projection i g months.toNat tl tp ftp true).1 =
        (generate_growth_projection i g months.toNat tl (tp.take tl.length)
          ftp true).1 := by
      rw [gen_rows_eq, gen_rows_eq]
      refine congrArg (List.range (months.toNat + 1)).map ?_
      funext n
      simp only [monthRecordAt, hpm]
    constructor
    · show mkDataFrame
          (generate_growth_projection i g months.toNat tl tp ftp true).1
          (column_headers tl true) =
        mkDataFrame (generate_growth_projection i g months.toNat tl
          (tp.take tl.length) ftp true).1 (column_headers tl true)
      rw [hrows]
    · refine ⟨(generate_growth_projection i g months.toNat tl tp ftp true).1,
        checked_match_some i g months tl tp ftp true (fun _ => hle), ?_⟩
      intro r hr
      rcases mem_gen_rows i g months.toNat tl tp ftp true r hr with ⟨n, hn, rfl⟩
      show (priceMonth tl tp ftp true (userSeq i g n)).1.length =
        min tl.length tp.length + 1
      rw [priceMonth_true_length, List.length_zip]
  · intro hlt
    exact checked_mismatch_none i g months tl tp ftp hlt

/-- C10 witness: one limit and two prices -- the call succeeds, the surplus
price is ignored and each row carries min + 1 = 2 tier-cost entries; three
limits and one price -- the call fails. -/
theorem C10_parallel_tier_lists_witness :
    (generate_growth_projection_checked 10 0 0 [3] [2, 7] 5 true =
        generate_growth_projection_checked 10 0 0 [3] ([2, 7].take 1) 5 true ∧
      ∃ rows, generate_growth_projection_checked 10 0 0 [3] [2, 7] 5 true =
          some (rows, column_headers [3] true) ∧
        ∀ r ∈ rows, r.tierCosts.length = min 1 2 + 1) ∧
    generate_growth_projection_checked 99 0 2 [5, 6, 7] [1] 3 true = none :=
  ⟨(C10_parallel_tier_lists 10 0 0 [3] [2, 7] 5).1 (by norm_num),
   (C10_parallel_tier_lists 99 0 2 [5, 6, 7] [1] 3).2 (by norm_num)⟩
